import Mathlib

/-!
Verification of the "distracted" site-blocker: a shallow embedding of the
DNR blocking-rule synchronizer (`packages/extension/.../dnr.ts`), the
unlock-grant session store, the AI-agent unlock guard
(`challenges/definitions/ai-agent.ts`), and the guard watcher
(`guard-watcher.ts`), together with theorems about the properties the
specification states for them.

Strings are modelled with Lean `String` (lists of characters); timestamps
(`Date.now()`, alarm times) are `Nat` milliseconds; the browser session
store and the alarm registry are association lists keyed by `String`.
JavaScript string primitives used by the source (`toLowerCase`, `trim`,
`replace` of an anchored prefix, `startsWith`, `slice`) are given as
character-list functions with the same behaviour on the ASCII inputs the
code works with.
-/

/-! ## Character-list helpers mirroring the JavaScript string operations -/

/-- JavaScript `String.prototype.toLowerCase`, on the ASCII range. -/
def jsToLower (cs : List Char) : List Char := cs.map Char.toLower

/-- JavaScript `String.prototype.trim`: drop whitespace from both ends. -/
def jsTrim (cs : List Char) : List Char :=
  ((cs.dropWhile Char.isWhitespace).reverse.dropWhile Char.isWhitespace).reverse

/-- The single anchored replace `.replace(/^https?:\/\//, "")`: strip one
leading `http://` or `https://`. -/
def stripSchemeL (cs : List Char) : List Char :=
  if "http://".data.isPrefixOf cs then cs.drop 7
  else if "https://".data.isPrefixOf cs then cs.drop 8
  else cs

/-- The anchored replace `.replace(/^www\./, "")`: strip one leading `www.`. -/
def stripWwwL (cs : List Char) : List Char :=
  if "www.".data.isPrefixOf cs then cs.drop 4 else cs

/-! ## Data model (`lib/storage` types, as read by the synchronizer) -/

/-- A site rule `{ pattern, allow }`. -/
structure SiteRule where
  pattern : String
  allow : Bool
deriving DecidableEq, Repr

/-- A blocked site `{ id, enabled, rules }`. -/
structure BlockedSite where
  id : String
  enabled : Bool
  rules : List SiteRule
deriving DecidableEq, Repr

/-- Modelled from the spec: the constant `RULE_ID_BASE` from `lib/consts`
(the file is not in scope; the spec fixes only that it is a constant base
for the synthetic identifier range). -/
def RULE_ID_BASE : Nat := 1000

/-- Modelled from the spec: the constant `MAX_RULES_PER_SITE` from
`lib/consts` (the fixed per-site cap on rules; its exact value is not in
scope). -/
def MAX_RULES_PER_SITE : Nat := 100

/-- Modelled from the spec: the constant `UNLOCK_PREFIX` from `lib/consts`,
the namespace used for session-storage keys of unlock grants; written
`UNLOCK_NS` here. Only its role as a fixed key namespace matters. -/
def UNLOCK_NS : String := "unlock:"

/-- Modelled from the spec: the constant `ALARM_PREFIX` from `lib/consts`,
the namespace used for relock alarm names; written `ALARM_NS` here. -/
def ALARM_NS : String := "relock:"

/-! ## RuleTranslator (`patternToDnrFilter`, `getRuleId`, `urlFilterToRegex`,
`createSiteRules` from the DNR module) -/

/-- Normalisation pipeline of `patternToDnrFilter`: lower-case, trim,
strip one leading scheme, strip one leading `www.`. -/
def normalizePatternL (cs : List Char) : List Char :=
  stripWwwL (stripSchemeL (jsTrim (jsToLower cs)))

/-- Embedding of `patternToDnrFilter(pattern)`: normalise, then either strip a leading
`*.` or keep the whole normalised pattern, producing a `||`-anchored
urlFilter string. -/
def patternToDnrFilter (pattern : String) : String :=
  let normalized := normalizePatternL pattern.data
  if "*.".data.isPrefixOf normalized then
    String.mk ('|' :: '|' :: normalized.drop 2)
  else
    String.mk ('|' :: '|' :: normalized)

/-- Embedding of `getRuleId`: `getRuleId(siteIndex, patternIndex) = RULE_ID_BASE + siteIndex *
MAX_RULES_PER_SITE + patternIndex`. -/
def getRuleId (siteIndex patternIndex : Nat) : Nat :=
  RULE_ID_BASE + siteIndex * MAX_RULES_PER_SITE + patternIndex

/-- The characters escaped by `replace(/[.+?^${}()|[\]\\]/g, "\\$&")`. -/
def regexSpecialChars : List Char :=
  ['.', '+', '?', '^', '$', '{', '}', '(', ')', '|', '[', ']', '\\']

/-- Embedding of `urlFilterToRegex(urlFilter)`: strip a leading `||`, escape regex
specials, turn remaining `*` into `.*`, and wrap in
`^(https?://(www\.)?` … `.*)$`. -/
def urlFilterToRegex (urlFilter : String) : String :=
  let p1 := if ['|', '|'].isPrefixOf urlFilter.data then urlFilter.data.drop 2
            else urlFilter.data
  let p2 := p1.flatMap (fun c => if c ∈ regexSpecialChars then ['\\', c] else [c])
  let p3 := p2.flatMap (fun c => if c = '*' then ['.', '*'] else [c])
  String.mk ("^(https?://(www\\.)?".data ++ p3 ++ ".*)$".data)

/-- A provider rule as built by `createSiteRules`: the action is always
`block` and the resource type always `main_frame`, so only the variable
fields (id, priority, regex filter) are carried. -/
structure DnrRule where
  id : Nat
  priority : Nat
  regexFilter : String
deriving DecidableEq, Repr

/-- Inner loop of `createSiteRules`: one rule per block pattern, with ids
assigned from the pattern's index. -/
def createRulesFrom (siteIndex : Nat) : Nat → List SiteRule → List DnrRule
  | _, [] => []
  | patternIndex, r :: rest =>
    { id := getRuleId siteIndex patternIndex
      priority := 1
      regexFilter := urlFilterToRegex (patternToDnrFilter r.pattern) }
      :: createRulesFrom siteIndex (patternIndex + 1) rest

/-- Embedding of `createSiteRules(site, siteIndex)`: nothing for a disabled site;
otherwise one block rule per `allow = false` pattern. -/
def createSiteRules (site : BlockedSite) (siteIndex : Nat) : List DnrRule :=
  if !site.enabled then []
  else createRulesFrom siteIndex 0 (site.rules.filter (fun r => !r.allow))

/-! ## BlockingSynchronizer (`syncDnrRules`, `getUnlockedSiteIds`) -/

/-- An unlock grant `{ siteId, expiresAt }` as stored in session storage. -/
structure UnlockState where
  siteId : String
  expiresAt : Nat
deriving DecidableEq, Repr

/-- The browser session store: an association list from keys to stored
unlock states (the only values this subsystem writes). -/
def SessionStore := List (String × UnlockState)

/-- Key lookup in an association list (first binding wins, as in the
browser's keyed storage). -/
def lookupKV {α : Type} (k : String) : List (String × α) → Option α
  | [] => none
  | (k', v) :: rest => if k' = k then some v else lookupKV k rest

/-- Semantics of `storage.remove(key)` / `alarms.clear(name)`: drop every binding of
the key. -/
def removeKV {α : Type} (k : String) (l : List (String × α)) : List (String × α) :=
  l.filter (fun kv => kv.1 ≠ k)

/-- Semantics of a keyed `storage.set` / `alarms.create` write: a keyed write
replaces any existing binding of the same key wholesale. -/
def insertKV {α : Type} (k : String) (v : α) (l : List (String × α)) :
    List (String × α) :=
  removeKV k l ++ [(k, v)]

/-- Session-storage key of a site's unlock grant. -/
def unlockKey (siteId : String) : String := UNLOCK_NS ++ siteId

/-- Alarm name of a site's relock wake-up. -/
def alarmKey (siteId : String) : String := ALARM_NS ++ siteId

/-- Embedding of `getUnlockedSiteIds()`: scan the whole session store and collect the
`siteId`s of entries under the unlock namespace whose `expiresAt` is still
in the future. -/
def getUnlockedSiteIds (store : SessionStore) (now : Nat) : List String :=
  (store.filter (fun kv =>
      UNLOCK_NS.data.isPrefixOf kv.1.data && decide (now < kv.2.expiresAt))).map
    (fun kv => kv.2.siteId)

/-- The `sites.forEach((site, index) => …)` loop of `syncDnrRules`: skip
disabled sites and currently-unlocked sites, else append that site's
rules. -/
def buildNewRules : List BlockedSite → List String → Nat → List DnrRule
  | [], _, _ => []
  | site :: rest, unlockedIds, i =>
    (if !site.enabled then []
     else if site.id ∈ unlockedIds then []
     else createSiteRules site i) ++ buildNewRules rest unlockedIds (i + 1)

/-- Semantics of the atomic `declarativeNetRequest.updateDynamicRules` call:
one atomic update that first removes every rule whose id is listed and
then adds the new rules. -/
def applyDnrUpdate (existing : List DnrRule) (removeRuleIds : List Nat)
    (addRules : List DnrRule) : List DnrRule :=
  existing.filter (fun r => r.id ∉ removeRuleIds) ++ addRules

/-- Embedding of `syncDnrRules()`: read sites and unlocked ids, list every existing
dynamic rule id, and atomically replace the whole dynamic rule set with
the freshly computed one. Returns the provider's dynamic rule set after
the update. -/
def syncDnrRules (existing : List DnrRule) (sites : List BlockedSite)
    (unlockedIds : List String) : List DnrRule :=
  applyDnrUpdate existing (existing.map (fun r => r.id))
    (buildNewRules sites unlockedIds 0)

/-! ## UnlockStateStore (`grantAccess`, `isSiteUnlocked`, `getUnlockState`) -/

/-- The state touched by the store: session storage, the alarm registry
(name ↦ scheduled time), and the provider's dynamic rule set. -/
structure BlockerState where
  storage : SessionStore
  alarms : List (String × Nat)
  rules : List DnrRule

/-- Duration in milliseconds: `(durationMinutes ?? 60) * 60 * 1000`. -/
def grantDurationMs (durationMinutes : Option Nat) : Nat :=
  durationMinutes.getD 60 * 60 * 1000

/-- Embedding of `grantAccess(siteId, durationMinutes)`: write the grant under the
site's namespaced key, re-run `syncDnrRules`, and (re)create the alarm of
the same name at the new expiry. Returns the new state and `expiresAt`. -/
def grantAccess (sites : List BlockedSite) (bs : BlockerState) (siteId : String)
    (durationMinutes : Option Nat) (now : Nat) : BlockerState × Nat :=
  let expiresAt := now + grantDurationMs durationMinutes
  let storage1 := insertKV (unlockKey siteId) ⟨siteId, expiresAt⟩ bs.storage
  let rules1 := syncDnrRules bs.rules sites (getUnlockedSiteIds storage1 now)
  let alarms1 := insertKV (alarmKey siteId) expiresAt bs.alarms
  ({ storage := storage1, alarms := alarms1, rules := rules1 }, expiresAt)

/-- Embedding of `isSiteUnlocked(siteId)`: look the grant up under the site's key;
a missing grant is `false`; a found-but-expired grant is removed from
session storage and reported `false`; otherwise `true`. Returns the
answer and the (possibly pruned) session store. -/
def isSiteUnlocked (store : SessionStore) (siteId : String) (now : Nat) :
    Bool × SessionStore :=
  match lookupKV (unlockKey siteId) store with
  | none => (false, store)
  | some st =>
    if st.expiresAt ≤ now then (false, removeKV (unlockKey siteId) store)
    else (true, store)

/-- Embedding of `getUnlockState(siteId)`: same lazy-expiry behaviour as
`isSiteUnlocked`, returning the live grant if any. -/
def getUnlockState (store : SessionStore) (siteId : String) (now : Nat) :
    Option UnlockState × SessionStore :=
  match lookupKV (unlockKey siteId) store with
  | none => (none, store)
  | some st =>
    if st.expiresAt ≤ now then (none, removeKV (unlockKey siteId) store)
    else (some st, store)

/-! ## A regex semantics for the filters the translator emits

Chrome evaluates the produced `regexFilter` strings against request URLs.
To reason about which URLs a produced rule matches, the regex dialect the
translator emits (literals, `\`-escapes, `.`, groups, postfix `?` `*` `+`,
anchored as `^(…)$`) is given an executable semantics: a parser into a
small regex AST and a Brzozowski-derivative matcher. -/

/-- Regex AST for the emitted dialect. -/
inductive RE where
  | fail : RE
  | eps : RE
  | chr : Char → RE
  | dot : RE
  | seq : RE → RE → RE
  | alt : RE → RE → RE
  | star : RE → RE
deriving DecidableEq, Repr

/-- Does the regex accept the empty string? -/
def RE.nullable : RE → Bool
  | .fail => false
  | .eps => true
  | .chr _ => false
  | .dot => false
  | .seq a b => a.nullable && b.nullable
  | .alt a b => a.nullable || b.nullable
  | .star _ => true

/-- Smart sequencing (keeps derivative terms small). -/
def RE.mkSeq : RE → RE → RE
  | .fail, _ => .fail
  | _, .fail => .fail
  | .eps, b => b
  | a, .eps => a
  | a, b => .seq a b

/-- Smart alternation (keeps derivative terms small). -/
def RE.mkAlt : RE → RE → RE
  | .fail, b => b
  | a, .fail => a
  | a, b => .alt a b

/-- Brzozowski derivative with respect to one character. -/
def RE.deriv : RE → Char → RE
  | .fail, _ => .fail
  | .eps, _ => .fail
  | .chr c, x => if c = x then .eps else .fail
  | .dot, _ => .eps
  | .seq a b, x =>
    if a.nullable then RE.mkAlt (RE.mkSeq (a.deriv x) b) (b.deriv x)
    else RE.mkSeq (a.deriv x) b
  | .alt a b, x => RE.mkAlt (a.deriv x) (b.deriv x)
  | .star a, x => RE.mkSeq (a.deriv x) (.star a)

/-- Whole-string match by iterated derivatives. -/
def reMatchList (r : RE) (cs : List Char) : Bool :=
  (cs.foldl RE.deriv r).nullable

/-- Attach a postfix quantifier (`?`, `*`, `+`) to a parsed atom. -/
def parsePostfix (r : RE) : List Char → RE × List Char
  | '?' :: rest => (.alt r .eps, rest)
  | '*' :: rest => (.star r, rest)
  | '+' :: rest => (.seq r (.star r), rest)
  | cs => (r, cs)

/-- Parse a sequence of atoms up to `)` or the end of input. The fuel is
one more than the input length, which each step strictly consumes. -/
def parseSeq : Nat → List Char → Option (RE × List Char)
  | 0, _ => none
  | _ + 1, [] => some (.eps, [])
  | _ + 1, ')' :: rest => some (.eps, ')' :: rest)
  | fuel + 1, '\\' :: c :: rest =>
    let (a, rest2) := parsePostfix (.chr c) rest
    match parseSeq fuel rest2 with
    | some (b, rest3) => some (.seq a b, rest3)
    | none => none
  | _ + 1, ['\\'] => none
  | fuel + 1, '(' :: rest =>
    match parseSeq fuel rest with
    | some (inner, ')' :: rest2) =>
      let (a, rest3) := parsePostfix inner rest2
      match parseSeq fuel rest3 with
      | some (b, rest4) => some (.seq a b, rest4)
      | none => none
    | _ => none
  | fuel + 1, c :: rest =>
    if c = '|' ∨ c = '[' ∨ c = ']' ∨ c = '{' ∨ c = '}' ∨ c = '^' ∨ c = '$'
        ∨ c = '?' ∨ c = '*' ∨ c = '+' then none
    else
      let (a, rest2) := parsePostfix (if c = '.' then .dot else .chr c) rest
      match parseSeq fuel rest2 with
      | some (b, rest3) => some (.seq a b, rest3)
      | none => none

/-- Parse a fully anchored regex `^…$` (the only shape the translator
emits). -/
def parseRegex (s : String) : Option RE :=
  match s.data with
  | '^' :: rest =>
    if rest.getLast? = some '$' then
      match parseSeq (rest.length + 1) rest.dropLast with
      | some (r, []) => some r
      | _ => none
    else none
  | _ => none

/-- Does the anchored regex string match the whole URL? -/
def regexMatches (regex url : String) : Bool :=
  match parseRegex regex with
  | some r => reMatchList r url.data
  | none => false

/-! ## GuardCheck: the AI-agent guard (`ai-agent.ts`) -/

/-- The typed failure reasons of a guard state. -/
inductive GuardReason where
  | invalid_url : GuardReason
  | server_error : GuardReason
  | offline : GuardReason
  | idle : GuardReason
  | waiting : GuardReason
deriving DecidableEq, Repr

/-- The guard state `UnlockGuardState`: `{ active, reason?, message? }`. -/
structure UnlockGuardState where
  active : Bool
  reason : Option GuardReason := none
  message : Option String := none
deriving DecidableEq, Repr

/-- The status-result shape produced by `getAiAgentStatus` /
`parseAiAgentStateMessage`: `{ active, waitingForInput, reason?,
statusCode? }`. -/
structure AiAgentStatusResult where
  active : Bool
  waitingForInput : Nat
  reason : Option GuardReason := none
  statusCode : Option Nat := none
deriving DecidableEq, Repr

/-- The caller's settings as read by the guard: `serverUrl` and the
optional `allowWhileWaitingForInput` checkbox; `config?.field` truthiness
is `getD false`. A `null`/`undefined` settings object is `none` at the
use sites. -/
structure AiAgentConfig where
  serverUrl : String := ""
  allowWhileWaitingForInput : Option Bool := none
deriving DecidableEq, Repr

/-- Truthiness of `config?.allowWhileWaitingForInput`. -/
def allowWaitingOf (config : Option AiAgentConfig) : Bool :=
  (config.bind (fun c => c.allowWhileWaitingForInput)).getD false

/-- The `${result.statusCode ? ` (${result.statusCode})` : ""}` template
piece (JavaScript truthiness: a 0 status code adds nothing). -/
def statusCodeSuffix (statusCode : Option Nat) : String :=
  match statusCode with
  | some c => if c ≠ 0 then " (" ++ toString c ++ ")" else ""
  | none => ""

/-- Tail of `UNLOCK_GUARDS.claude.check`: how the fetched status result is
mapped to an `UnlockGuardState` (the fetch itself, `getAiAgentStatus`, is
the external collaborator; its result is this function's input). -/
def claudeCheck (result : AiAgentStatusResult) (config : Option AiAgentConfig) :
    UnlockGuardState :=
  if !result.active && decide (0 < result.waitingForInput) && allowWaitingOf config then
    { active := true, reason := none, message := none }
  else if decide (0 < result.waitingForInput) && !result.active then
    { active := false, reason := some .waiting
      message := some "AI agent is waiting for your input." }
  else
    { active := result.active
      reason := result.reason
      message :=
        match result.reason with
        | some .invalid_url => some "Distracted server URL is invalid."
        | some .server_error =>
          some ("Distracted server error" ++ statusCodeSuffix result.statusCode ++ ".")
        | some .offline => some "Distracted server is offline."
        | _ => if result.active then none else some "AI agent is idle." }

/-- Embedding of `UNLOCK_GUARDS.claude.parseWebSocketMessage`, after
`parseAiAgentStateMessage` has produced a result (`none` for an
unparseable or semantically-empty payload). -/
def claudeParseWsMessage (parsed : Option AiAgentStatusResult)
    (config : Option AiAgentConfig) : Option UnlockGuardState :=
  match parsed with
  | none => none
  | some result =>
    if !result.active && decide (0 < result.waitingForInput) && allowWaitingOf config then
      some { active := true, reason := none, message := none }
    else if decide (0 < result.waitingForInput) && !result.active then
      some { active := false, reason := some .waiting
             message := some "AI agent is waiting for your input." }
    else
      some { active := result.active
             reason := result.reason
             message := if result.active then none else some "AI agent is idle." }

/-! ## GuardWatcher (`startGuardWatcher` in `guard-watcher.ts`)

The watcher is a closure over mutable flags (`stopped`, timer handles, a
socket, `reconnectAttempts`, `lastState`) driven by timers and socket
events on a single-threaded event loop. It is embedded as a state record
plus a step function over the events that can fire. Timer handles are
booleans ("interval installed"), the pending reconnect timeout carries its
delay in milliseconds, and the list of states handed to `onState` so far
is recorded in `emitted`. -/

/-- The mutable state captured by `startGuardWatcher`'s closures, plus the
history of emissions to `onState`. -/
structure WatcherState where
  stopped : Bool
  pollTimer : Bool
  heartbeatTimer : Bool
  wsPingTimer : Bool
  reconnectTimer : Option Nat
  reconnectAttempts : Nat
  socketOpen : Bool
  lastState : Option UnlockGuardState
  emitted : List UnlockGuardState
deriving DecidableEq, Repr

/-- The events that can reach a watcher session: completion of a
`runCheck` (its `catch` already folded into an `offline` state), a parsed
stream message (`none` when the payload was unparseable or empty), socket
open/close/error, the reconnect timeout firing, the three interval ticks,
and an external `stop()` call. -/
inductive WatcherEvent where
  | checkResult : UnlockGuardState → WatcherEvent
  | streamMessage : Option UnlockGuardState → WatcherEvent
  | streamOpen : WatcherEvent
  | streamClose : WatcherEvent
  | streamError : WatcherEvent
  | reconnectFired : WatcherEvent
  | pollTick : WatcherEvent
  | heartbeatTick : WatcherEvent
  | pingTick : WatcherEvent
  | stopRequested : WatcherEvent
deriving DecidableEq, Repr

/-- Embedding of `emitState`: drop the state when the session is stopped, else record
it as `lastState` and deliver it to `onState`. -/
def emitState (s : UnlockGuardState) (st : WatcherState) : WatcherState :=
  if st.stopped then st
  else { st with lastState := some s, emitted := st.emitted ++ [s] }

/-- Embedding of `stop`: a no-op on an already stopped session, else set the stopped
flag, clear every timer, and close any open socket. -/
def stopWatcher (st : WatcherState) : WatcherState :=
  if st.stopped then st
  else { st with stopped := true, pollTimer := false, heartbeatTimer := false
                 wsPingTimer := false, reconnectTimer := none, socketOpen := false }

/-- Embedding of `handleGuardState`: emit the state, then tear the session down if it
is inactive. -/
def handleGuardState (s : UnlockGuardState) (st : WatcherState) : WatcherState :=
  let st1 := emitState s st
  if s.active then st1 else stopWatcher st1

/-- Embedding of `scheduleReconnect`: nothing when stopped or when a reconnect is
already pending; else bump the attempt counter and arm a timeout of
`min(10000, 500 * 2 ^ min(6, reconnectAttempts))` milliseconds. -/
def scheduleReconnect (st : WatcherState) : WatcherState :=
  if st.stopped then st
  else if st.reconnectTimer.isSome then st
  else
    let attempts := st.reconnectAttempts + 1
    { st with reconnectAttempts := attempts
              reconnectTimer := some (min 10000 (500 * 2 ^ min 6 attempts)) }

/-- One step of the watcher session under an event. `pollTick` and
`pingTick` mutate nothing by themselves (the poll tick starts an async
check whose completion arrives later as a `checkResult`; the ping only
writes to the socket). -/
def watcherStep (st : WatcherState) : WatcherEvent → WatcherState
  | .checkResult s => handleGuardState s st
  | .streamMessage parsed =>
    match parsed with
    | none => st
    | some s => handleGuardState s st
  | .streamOpen =>
    if st.stopped then st
    else { st with reconnectAttempts := 0, socketOpen := true }
  | .streamClose => scheduleReconnect { st with socketOpen := false }
  | .streamError => scheduleReconnect st
  | .reconnectFired =>
    if st.reconnectTimer.isNone then st
    else if st.stopped then { st with reconnectTimer := none }
    else { st with reconnectTimer := none, socketOpen := false }
  | .pollTick => st
  | .heartbeatTick =>
    match st.lastState with
    | some ls => if ls.active then emitState ls st else st
    | none => st
  | .pingTick => st
  | .stopRequested => stopWatcher st

/-- The state of a freshly started websocket-mode session: not stopped,
poll, heartbeat and ping intervals installed, no pending reconnect, zero
attempts, socket still connecting, nothing emitted yet. -/
def initialWatcherState : WatcherState :=
  { stopped := false, pollTimer := true, heartbeatTimer := true
    wsPingTimer := true, reconnectTimer := none, reconnectAttempts := 0
    socketOpen := false, lastState := none, emitted := [] }

/-- Run a list of events in order. -/
def runWatcher (st : WatcherState) (evs : List WatcherEvent) : WatcherState :=
  evs.foldl watcherStep st

/-- The reconnect delays scheduled across `n` consecutive close events,
each reconnect timeout firing (and the resulting connection attempt
failing) before the next close. -/
def closeDelays : Nat → WatcherState → List Nat
  | 0, _ => []
  | n + 1, st =>
    let st1 := watcherStep st .streamClose
    (st1.reconnectTimer.getD 0) :: closeDelays n (watcherStep st1 .reconnectFired)

/-! ## Claims -/

/-- C8: the rule identifier `ruleId = BASE + siteIndex * MAX_RULES_PER_SITE
+ patternIndex` is injective over all pairs with `patternIndex` below the
per-site cap, for any number of sites. -/
theorem c8_getRuleId_injective (s1 p1 s2 p2 : Nat)
    (h1 : p1 < MAX_RULES_PER_SITE) (h2 : p2 < MAX_RULES_PER_SITE)
    (h : getRuleId s1 p1 = getRuleId s2 p2) : s1 = s2 ∧ p1 = p2 := by
  simp only [getRuleId, RULE_ID_BASE, MAX_RULES_PER_SITE] at h h1 h2
  omega

/-- Witness for C8 at a concrete pair. -/
theorem c8_getRuleId_injective_witness :
    3 < MAX_RULES_PER_SITE ∧ (2 = 2 ∧ 3 = 3) :=
  ⟨by decide, c8_getRuleId_injective 2 3 2 3 (by decide) (by decide) rfl⟩

/-- C5: a status result with no active agent work and a positive
waiting-for-input count yields `{active := false, reason := waiting}` when
the settings do not opt in to `allowWhileWaitingForInput`, and
`{active := true}` when they do — both for `check` and for the websocket
message path. -/
theorem c5_waiting_for_input (result : AiAgentStatusResult)
    (config : Option AiAgentConfig) (ha : result.active = false)
    (hw : 0 < result.waitingForInput) :
    (allowWaitingOf config = false →
      claudeCheck result config =
        { active := false, reason := some .waiting
          message := some "AI agent is waiting for your input." } ∧
      claudeParseWsMessage (some result) config =
        some { active := false, reason := some .waiting
               message := some "AI agent is waiting for your input." })
    ∧ (allowWaitingOf config = true →
      claudeCheck result config = { active := true, reason := none, message := none } ∧
      claudeParseWsMessage (some result) config =
        some { active := true, reason := none, message := none }) := by
  constructor <;> intro hallow <;>
    simp [claudeCheck, claudeParseWsMessage, ha, hw, hallow]

/-- Witness for C5: one concrete result with opted-out and opted-in
settings. -/
theorem c5_waiting_for_input_witness :
    (claudeCheck { active := false, waitingForInput := 1 } none =
      { active := false, reason := some .waiting
        message := some "AI agent is waiting for your input." })
    ∧ (claudeCheck { active := false, waitingForInput := 1 }
        (some { allowWhileWaitingForInput := some true }) =
      { active := true, reason := none, message := none }) :=
  ⟨((c5_waiting_for_input { active := false, waitingForInput := 1 } none rfl
      (by decide)).1 rfl).1,
   ((c5_waiting_for_input { active := false, waitingForInput := 1 }
      (some { allowWhileWaitingForInput := some true }) rfl
      (by decide)).2 rfl).1⟩

/-- C3 (code evaluation): under five consecutive stream closes from a
fresh session the scheduled reconnect delays are `1000, 2000, 4000, 8000,
10000` milliseconds — not `500, 1000, 2000, 4000, 8000` as claimed — the
10000 ms cap is reached from the fifth attempt, and the first delay after
a successful open is 1000 ms, not 500 ms: the pre-incremented attempt
counter makes `500 * 2 ^ min 6 attempts` start at `2 ^ 1`. -/
theorem c3_backoff_delays_eval :
    closeDelays 6 initialWatcherState = [1000, 2000, 4000, 8000, 10000, 10000]
    ∧ closeDelays 5 initialWatcherState ≠ [500, 1000, 2000, 4000, 8000]
    ∧ (watcherStep (watcherStep initialWatcherState .streamOpen)
        .streamClose).reconnectTimer = some 1000 := by
  decide

/-- C4 (code evaluation): a `*.example.com` pattern produces the same
filter as the bare `example.com` pattern, and the resulting provider
regex does not match a URL on the subdomain host `foo.example.com`; it
matches only the exact domain and its `www.` variant. -/
theorem c4_subdomain_regex_eval :
    patternToDnrFilter "*.example.com" = patternToDnrFilter "example.com"
    ∧ regexMatches (urlFilterToRegex (patternToDnrFilter "*.example.com"))
        "https://foo.example.com/" = false
    ∧ regexMatches (urlFilterToRegex (patternToDnrFilter "*.example.com"))
        "https://example.com/" = true
    ∧ regexMatches (urlFilterToRegex (patternToDnrFilter "example.com"))
        "https://www.example.com/" = true := by
  decide

/-- C2: a guard state with `active = false` handled by a running session
is emitted and then the watcher fully stops: every timer is cancelled and
the socket is closed; the stream-message path lands in the same state. -/
theorem c2_inactive_stops_watcher (st : WatcherState) (g : UnlockGuardState)
    (hrun : st.stopped = false) (hin : g.active = false) :
    watcherStep st (.checkResult g) =
      { st with stopped := true, pollTimer := false, heartbeatTimer := false
                wsPingTimer := false, reconnectTimer := none, socketOpen := false
                lastState := some g, emitted := st.emitted ++ [g] }
    ∧ watcherStep st (.streamMessage (some g)) = watcherStep st (.checkResult g) := by
  constructor
  · simp [watcherStep, handleGuardState, emitState, stopWatcher, hrun, hin]
  · rfl

/-- Witness for C2 on a fresh session and an `offline` state. -/
theorem c2_inactive_stops_watcher_witness :
    watcherStep initialWatcherState
        (.checkResult { active := false, reason := some .offline }) =
      { initialWatcherState with
          stopped := true, pollTimer := false, heartbeatTimer := false
          wsPingTimer := false, reconnectTimer := none, socketOpen := false
          lastState := some { active := false, reason := some .offline }
          emitted := initialWatcherState.emitted
            ++ [{ active := false, reason := some .offline }] } :=
  (c2_inactive_stops_watcher initialWatcherState
    { active := false, reason := some .offline } rfl rfl).1

/-- C7: once a session is stopped, no event whatsoever — late poll tick,
heartbeat tick, stream message, socket event, reconnect firing, or the
completion of an in-flight check — adds an emission: the `stopped` flag is
checked before every emission. -/
theorem c7_no_emission_after_stop (st : WatcherState) (ev : WatcherEvent)
    (h : st.stopped = true) : (watcherStep st ev).emitted = st.emitted := by
  cases ev <;>
    simp [watcherStep, handleGuardState, emitState, stopWatcher,
      scheduleReconnect, h] <;>
    split <;>
    simp [watcherStep, handleGuardState, emitState, stopWatcher,
      scheduleReconnect, h]

/-- Witness for C7: a late check completion on a stopped session. -/
theorem c7_no_emission_after_stop_witness :
    (watcherStep (watcherStep initialWatcherState .stopRequested)
      (.checkResult { active := true })).emitted =
      (watcherStep initialWatcherState .stopRequested).emitted :=
  c7_no_emission_after_stop (watcherStep initialWatcherState .stopRequested)
    (.checkResult { active := true }) rfl

/-! ## Association-list lemmas used by the store claims -/

/-- Looking a key up after removing it finds nothing. -/
theorem lookupKV_removeKV {α : Type} (k : String) (l : List (String × α)) :
    lookupKV k (removeKV k l) = none := by
  induction l with
  | nil => rfl
  | cons a l ih =>
    by_cases h : a.1 = k
    · simpa [removeKV, List.filter_cons, h] using ih
    · simpa [removeKV, List.filter_cons, h, lookupKV] using ih

/-- Looking a key up right after a keyed write finds the written value. -/
theorem lookupKV_insertKV {α : Type} (k : String) (v : α)
    (l : List (String × α)) : lookupKV k (insertKV k v l) = some v := by
  induction l with
  | nil => simp [insertKV, removeKV, lookupKV]
  | cons a l ih =>
    by_cases h : a.1 = k
    · simpa [insertKV, removeKV, List.filter_cons, h] using ih
    · simpa [insertKV, removeKV, List.filter_cons, h, lookupKV] using ih

/-- After a keyed write there is exactly one binding of the key. -/
theorem countP_insertKV {α : Type} (k : String) (v : α)
    (l : List (String × α)) :
    (insertKV k v l).countP (fun kv => kv.1 = k) = 1 := by
  induction l with
  | nil => simp [insertKV, removeKV, List.countP_cons]
  | cons a l ih =>
    by_cases h : a.1 = k
    · simp only [insertKV, removeKV, List.filter_cons, h] at ih ⊢
      simp [ih, h]
    · simp only [insertKV, removeKV, List.filter_cons, h] at ih ⊢
      simp [List.countP_cons, ih, h]

/-- C6: `isSiteUnlocked` is true exactly when a stored grant for the site
has `expiresAt` strictly after now; a found-but-expired grant makes the
check false and is deleted from session storage, so a subsequent
`getUnlockState` (at any time) finds nothing. -/
theorem c6_isSiteUnlocked_lazy_expiry (store : SessionStore) (siteId : String)
    (now : Nat) :
    ((isSiteUnlocked store siteId now).1 = true ↔
      ∃ st, lookupKV (unlockKey siteId) store = some st ∧ now < st.expiresAt)
    ∧ ∀ st, lookupKV (unlockKey siteId) store = some st → st.expiresAt ≤ now →
        (isSiteUnlocked store siteId now).1 = false
        ∧ ∀ now2, getUnlockState (isSiteUnlocked store siteId now).2 siteId now2 =
            (none, (isSiteUnlocked store siteId now).2) := by
  constructor
  · cases hl : lookupKV (unlockKey siteId) store with
    | none =>
      have hstep : isSiteUnlocked store siteId now = (false, store) := by
        unfold isSiteUnlocked; rw [hl]
      rw [hstep]; simp [hl]
    | some st =>
      by_cases h : st.expiresAt ≤ now
      · have hstep : isSiteUnlocked store siteId now =
            (false, removeKV (unlockKey siteId) store) := by
          unfold isSiteUnlocked; rw [hl]; simp [h]
        rw [hstep]
        constructor
        · intro hfalse; exact absurd hfalse (by simp)
        · rintro ⟨st', hst', hlt⟩
          cases hst'
          omega
      · have hstep : isSiteUnlocked store siteId now = (true, store) := by
          unfold isSiteUnlocked; rw [hl]; simp [h]
        rw [hstep]
        exact ⟨fun _ => ⟨st, rfl, by omega⟩, fun _ => rfl⟩
  · intro st hl hexp
    have hstep : isSiteUnlocked store siteId now =
        (false, removeKV (unlockKey siteId) store) := by
      unfold isSiteUnlocked
      rw [hl]
      simp [hexp]
    refine ⟨by rw [hstep], fun now2 => ?_⟩
    rw [hstep]
    unfold getUnlockState
    rw [lookupKV_removeKV]

/-- Witness for C6: a concrete store holding an expired grant. -/
theorem c6_isSiteUnlocked_lazy_expiry_witness :
    (isSiteUnlocked [(unlockKey "x", ⟨"x", 50⟩)] "x" 100).1 = false
    ∧ getUnlockState (isSiteUnlocked [(unlockKey "x", ⟨"x", 50⟩)] "x" 100).2
        "x" 100 = (none, (isSiteUnlocked [(unlockKey "x", ⟨"x", 50⟩)] "x" 100).2) :=
  ⟨((c6_isSiteUnlocked_lazy_expiry [(unlockKey "x", ⟨"x", 50⟩)] "x" 100).2
      ⟨"x", 50⟩ (by decide) (by decide)).1,
   ((c6_isSiteUnlocked_lazy_expiry [(unlockKey "x", ⟨"x", 50⟩)] "x" 100).2
      ⟨"x", 50⟩ (by decide) (by decide)).2 100⟩

/-- C9: granting the same site twice leaves exactly one stored grant under
the site's key — carrying the second expiry — and exactly one alarm under
the site's alarm name, scheduled at that same expiry: the second write
overwrites the first wholesale. -/
theorem c9_regrant_overwrites (sites : List BlockedSite) (bs : BlockerState)
    (siteId : String) (d1 d2 : Option Nat) (t1 t2 : Nat) :
    let bs1 := (grantAccess sites bs siteId d1 t1).1
    let bs2 := (grantAccess sites bs1 siteId d2 t2).1
    lookupKV (unlockKey siteId) bs2.storage =
      some ⟨siteId, t2 + grantDurationMs d2⟩
    ∧ lookupKV (alarmKey siteId) bs2.alarms = some (t2 + grantDurationMs d2)
    ∧ bs2.storage.countP (fun kv => kv.1 = unlockKey siteId) = 1
    ∧ bs2.alarms.countP (fun kv => kv.1 = alarmKey siteId) = 1
    ∧ (grantAccess sites bs1 siteId d2 t2).2 = t2 + grantDurationMs d2 := by
  refine ⟨?_, ?_, ?_, ?_, rfl⟩
  · exact lookupKV_insertKV _ _ _
  · exact lookupKV_insertKV _ _ _
  · exact countP_insertKV _ _ _
  · exact countP_insertKV _ _ _

/-- Removing every listed id from the existing rule set removes every
existing rule. -/
theorem applyDnrUpdate_removes_all (existing addRules : List DnrRule) :
    applyDnrUpdate existing (existing.map (fun r => r.id)) addRules = addRules := by
  unfold applyDnrUpdate
  have h : existing.filter
      (fun r => r.id ∉ existing.map (fun r => r.id)) = [] := by
    rw [List.filter_eq_nil_iff]
    intro r hr
    simp only [decide_eq_true_eq, Decidable.not_not]
    exact List.mem_map_of_mem _ hr
  rw [h, List.nil_append]

/-- Every rule produced by the sync loop comes from some enabled,
not-unlocked site at its position in the list. -/
theorem buildNewRules_mem (sites : List BlockedSite) (unlockedIds : List String)
    (k : Nat) (r : DnrRule) (hr : r ∈ buildNewRules sites unlockedIds k) :
    ∃ i site, sites[i]? = some site ∧ site.enabled = true
      ∧ site.id ∉ unlockedIds ∧ r ∈ createSiteRules site (k + i) := by
  induction sites generalizing k with
  | nil => cases hr
  | cons site rest ih =>
    rw [buildNewRules, List.mem_append] at hr
    rcases hr with hr | hr
    · cases he : site.enabled with
      | false => simp [he] at hr
      | true =>
        simp only [he, Bool.not_true] at hr
        rw [if_neg (by simp)] at hr
        by_cases hu : site.id ∈ unlockedIds
        · rw [if_pos hu] at hr; cases hr
        · rw [if_neg hu] at hr
          exact ⟨0, site, by simp, he, hu, by simpa using hr⟩
    · obtain ⟨i, site', hget, he, hu, hmem⟩ := ih (k + 1) hr
      exact ⟨i + 1, site', by simpa using hget, he, hu,
        by simpa [Nat.add_assoc, Nat.add_comm 1 i] using hmem⟩

/-- C1: `syncDnrRules` replaces the provider's entire dynamic rule set in
one operation — the result is exactly the freshly computed rule set, with
every previously existing rule id removed — and every rule in the new set
comes from an enabled site that is not currently unlocked (so disabled and
unlocked sites emit no rules). -/
theorem c1_sync_replaces_rule_set (existing : List DnrRule)
    (sites : List BlockedSite) (unlockedIds : List String) :
    syncDnrRules existing sites unlockedIds = buildNewRules sites unlockedIds 0
    ∧ ∀ r, r ∈ syncDnrRules existing sites unlockedIds →
        ∃ i site, sites[i]? = some site ∧ site.enabled = true
          ∧ site.id ∉ unlockedIds ∧ r ∈ createSiteRules site i := by
  have hrepl : syncDnrRules existing sites unlockedIds =
      buildNewRules sites unlockedIds 0 :=
    applyDnrUpdate_removes_all existing _
  refine ⟨hrepl, fun r hr => ?_⟩
  rw [hrepl] at hr
  obtain ⟨i, site, hget, he, hu, hmem⟩ := buildNewRules_mem sites unlockedIds 0 r hr
  exact ⟨i, site, hget, he, hu, by simpa using hmem⟩

/-- Witness for C1: a sync over one stale rule and three sites — one
disabled, one active, one unlocked — where the active site's rule is in
the result and traces back to that site. -/
theorem c1_sync_replaces_rule_set_witness :
    (syncDnrRules [⟨1, 1, "old"⟩]
      [⟨"s1", false, [⟨"a.com", false⟩]⟩,
       ⟨"s2", true, [⟨"example.com", false⟩]⟩,
       ⟨"s3", true, [⟨"b.com", false⟩]⟩] ["s3"] =
      buildNewRules
        [⟨"s1", false, [⟨"a.com", false⟩]⟩,
         ⟨"s2", true, [⟨"example.com", false⟩]⟩,
         ⟨"s3", true, [⟨"b.com", false⟩]⟩] ["s3"] 0)
    ∧ ∃ i site,
        [(⟨"s1", false, [⟨"a.com", false⟩]⟩ : BlockedSite),
         ⟨"s2", true, [⟨"example.com", false⟩]⟩,
         ⟨"s3", true, [⟨"b.com", false⟩]⟩][i]? = some site
        ∧ site.enabled = true ∧ site.id ∉ ["s3"]
        ∧ (⟨getRuleId 1 0, 1, urlFilterToRegex (patternToDnrFilter "example.com")⟩ : DnrRule)
            ∈ createSiteRules site i :=
  ⟨(c1_sync_replaces_rule_set _ _ _).1,
   (c1_sync_replaces_rule_set [⟨1, 1, "old"⟩]
      [⟨"s1", false, [⟨"a.com", false⟩]⟩,
       ⟨"s2", true, [⟨"example.com", false⟩]⟩,
       ⟨"s3", true, [⟨"b.com", false⟩]⟩] ["s3"]).2
     ⟨getRuleId 1 0, 1, urlFilterToRegex (patternToDnrFilter "example.com")⟩
     (by decide)⟩

/-! ## Normalisation lemmas for the pattern translator (C10) -/

/-- Lower-casing leaves whitespace characters unchanged. -/
theorem toLower_of_whitespace {c : Char} (h : c.isWhitespace = true) :
    Char.toLower c = c := by
  simp [Char.isWhitespace] at h
  rcases h with ((h | h) | h) | h <;> subst h <;> decide

/-- Dropping while a predicate holds skips a whole block that satisfies
it. -/
theorem dropWhile_append_of_forall {p : Char → Bool} {u : List Char}
    (hu : ∀ c ∈ u, p c = true) (x : List Char) :
    (u ++ x).dropWhile p = x.dropWhile p := by
  induction u with
  | nil => rfl
  | cons a u ih =>
    rw [List.cons_append, List.dropWhile_cons, if_pos (hu a (by simp))]
    exact ih (fun c hc => hu c (by simp [hc]))

/-- Dropping while a predicate holds is the identity when the head does
not satisfy it. -/
theorem dropWhile_eq_self_of_head {p : Char → Bool} {cs : List Char}
    (h : ∀ c, cs.head? = some c → p c = false) : cs.dropWhile p = cs := by
  cases cs with
  | nil => rfl
  | cons a t => rw [List.dropWhile_cons, if_neg (by simp [h a rfl])]

/-- When something survives the left part, dropping distributes over an
append. -/
theorem dropWhile_append_of_ne_nil {p : Char → Bool} {x : List Char}
    (h : x.dropWhile p ≠ []) (v : List Char) :
    (x ++ v).dropWhile p = x.dropWhile p ++ v := by
  induction x with
  | nil => exact absurd rfl h
  | cons a t ih =>
    rw [List.cons_append, List.dropWhile_cons]
    by_cases ha : p a = true
    · rw [if_pos ha, List.dropWhile_cons, if_pos ha]
      rw [List.dropWhile_cons, if_pos ha] at h
      exact ih h
    · rw [if_neg ha, List.dropWhile_cons, if_neg ha, List.cons_append]

/-- The `trim` function ignores surrounding whitespace blocks. -/
theorem jsTrim_append_whitespace {u v : List Char}
    (hu : ∀ c ∈ u, c.isWhitespace = true) (hv : ∀ c ∈ v, c.isWhitespace = true)
    (x : List Char) : jsTrim (u ++ x ++ v) = jsTrim x := by
  unfold jsTrim
  rw [List.append_assoc, dropWhile_append_of_forall hu]
  by_cases hx : x.dropWhile Char.isWhitespace = []
  · have hxw : ∀ c ∈ x, c.isWhitespace = true := List.dropWhile_eq_nil_iff.mp hx
    have hxv : (x ++ v).dropWhile Char.isWhitespace = [] :=
      List.dropWhile_eq_nil_iff.mpr (fun c hc => by
        rcases List.mem_append.mp hc with h | h
        · exact hxw c h
        · exact hv c h)
    rw [hxv, hx]
  · rw [dropWhile_append_of_ne_nil hx, List.reverse_append,
      dropWhile_append_of_forall (fun c hc => hv c (List.mem_reverse.mp hc))]

/-- The `trim` function is the identity when neither end is whitespace. -/
theorem jsTrim_eq_self {cs : List Char}
    (h1 : ∀ c, cs.head? = some c → c.isWhitespace = false)
    (h2 : ∀ c, cs.getLast? = some c → c.isWhitespace = false) :
    jsTrim cs = cs := by
  unfold jsTrim
  rw [dropWhile_eq_self_of_head h1,
    dropWhile_eq_self_of_head (fun c hc => h2 c (by rwa [List.head?_reverse] at hc)),
    List.reverse_reverse]

/-- Lower-casing is transparent on all-whitespace blocks. -/
theorem jsToLower_of_whitespace {u : List Char}
    (hu : ∀ c ∈ u, c.isWhitespace = true) : jsToLower u = u := by
  unfold jsToLower
  induction u with
  | nil => rfl
  | cons a t ih =>
    rw [List.map_cons, toLower_of_whitespace (hu a (by simp)),
      ih (fun c hc => hu c (by simp [hc]))]

/-- Last-character condition transported across a fixed non-empty,
non-whitespace-ending first block. -/
theorem getLast?_fixed_append (pre : List Char) (d : Char)
    (hpre : pre.getLast? = some d) (hd : d.isWhitespace = false)
    {p : List Char} (hlast : ∀ c, p.getLast? = some c → c.isWhitespace = false) :
    ∀ c, (pre ++ p).getLast? = some c → c.isWhitespace = false := by
  intro c hc
  cases hp : p with
  | nil =>
    rw [hp, List.append_nil, hpre] at hc
    cases hc
    exact hd
  | cons a t =>
    rw [hp, List.getLast?_append_of_ne_nil _ (List.cons_ne_nil a t)] at hc
    exact hlast c (hp ▸ hc)

/-- Two patterns with the same normalised form translate to the same
filter. -/
theorem patternToDnrFilter_congr {s t : String}
    (h : normalizePatternL s.data = normalizePatternL t.data) :
    patternToDnrFilter s = patternToDnrFilter t := by
  simp only [patternToDnrFilter, h]

/-- A lowercase, trimmed pattern with no leading scheme or `www.` is left
unchanged by normalisation. -/
theorem normalizePatternL_eq_self {p : String} (hlow : jsToLower p.data = p.data)
    (hhd : ∀ c, p.data.head? = some c → c.isWhitespace = false)
    (hlast : ∀ c, p.data.getLast? = some c → c.isWhitespace = false)
    (hs1 : "http://".data.isPrefixOf p.data = false)
    (hs2 : "https://".data.isPrefixOf p.data = false)
    (hw : "www.".data.isPrefixOf p.data = false) :
    normalizePatternL p.data = p.data := by
  unfold normalizePatternL
  rw [hlow, jsTrim_eq_self hhd hlast]
  unfold stripSchemeL
  rw [if_neg (by simp [hs1]), if_neg (by simp [hs2])]
  unfold stripWwwL
  rw [if_neg (by simp [hw])]

/-- Prepending `http://` to a normalised core pattern normalises back to
the core. -/
theorem normalizePatternL_http {p : String} (hlow : jsToLower p.data = p.data)
    (hlast : ∀ c, p.data.getLast? = some c → c.isWhitespace = false)
    (hw : "www.".data.isPrefixOf p.data = false) :
    normalizePatternL ("http://".data ++ p.data) = p.data := by
  unfold normalizePatternL
  have hl : jsToLower ("http://".data ++ p.data) = "http://".data ++ p.data := by
    unfold jsToLower at hlow ⊢
    rw [List.map_append, hlow]
    rfl
  rw [hl, jsTrim_eq_self (fun c hc => by cases hc; decide)
    (getLast?_fixed_append "http://".data '/' (by decide) (by decide) hlast)]
  unfold stripSchemeL
  rw [if_pos (by simp [List.isPrefixOf]),
    show ("http://".data ++ p.data).drop 7 = p.data from
      by rw [show (7 : Nat) = ("http://".data).length from rfl, List.drop_left]]
  unfold stripWwwL
  rw [if_neg (by simp [hw])]

/-- Prepending `https://` to a normalised core pattern normalises back to
the core. -/
theorem normalizePatternL_https {p : String} (hlow : jsToLower p.data = p.data)
    (hlast : ∀ c, p.data.getLast? = some c → c.isWhitespace = false)
    (hw : "www.".data.isPrefixOf p.data = false) :
    normalizePatternL ("https://".data ++ p.data) = p.data := by
  unfold normalizePatternL
  have hl : jsToLower ("https://".data ++ p.data) = "https://".data ++ p.data := by
    unfold jsToLower at hlow ⊢
    rw [List.map_append, hlow]
    rfl
  rw [hl, jsTrim_eq_self (fun c hc => by cases hc; decide)
    (getLast?_fixed_append "https://".data '/' (by decide) (by decide) hlast)]
  unfold stripSchemeL
  rw [if_neg (by simp [List.isPrefixOf]), if_pos (by simp [List.isPrefixOf]),
    show ("https://".data ++ p.data).drop 8 = p.data from
      by rw [show (8 : Nat) = ("https://".data).length from rfl, List.drop_left]]
  unfold stripWwwL
  rw [if_neg (by simp [hw])]

/-- Prepending `www.` to a normalised core pattern normalises back to the
core. -/
theorem normalizePatternL_www {p : String} (hlow : jsToLower p.data = p.data)
    (hlast : ∀ c, p.data.getLast? = some c → c.isWhitespace = false) :
    normalizePatternL ("www.".data ++ p.data) = p.data := by
  unfold normalizePatternL
  have hl : jsToLower ("www.".data ++ p.data) = "www.".data ++ p.data := by
    unfold jsToLower at hlow ⊢
    rw [List.map_append, hlow]
    rfl
  rw [hl, jsTrim_eq_self (fun c hc => by cases hc; decide)
    (getLast?_fixed_append "www.".data '.' (by decide) (by decide) hlast)]
  unfold stripSchemeL
  rw [if_neg (by simp [List.isPrefixOf]), if_neg (by simp [List.isPrefixOf])]
  unfold stripWwwL
  rw [if_pos (by simp [List.isPrefixOf]),
    show ("www.".data ++ p.data).drop 4 = p.data from
      by rw [show (4 : Nat) = ("www.".data).length from rfl, List.drop_left]]

/-- Prepending `*.` to a normalised core pattern normalises to `*.` plus
the core (nothing in the pipeline strips it). -/
theorem normalizePatternL_star {p : String} (hlow : jsToLower p.data = p.data)
    (hlast : ∀ c, p.data.getLast? = some c → c.isWhitespace = false) :
    normalizePatternL ('*' :: '.' :: p.data) = '*' :: '.' :: p.data := by
  unfold normalizePatternL
  have hl : jsToLower ('*' :: '.' :: p.data) = '*' :: '.' :: p.data := by
    unfold jsToLower at hlow ⊢
    rw [List.map_cons, List.map_cons, hlow]
    rfl
  have ht : jsTrim ('*' :: '.' :: p.data) = '*' :: '.' :: p.data :=
    jsTrim_eq_self (fun c hc => by cases hc; decide)
      (getLast?_fixed_append ['*', '.'] '.' (by decide) (by decide) hlast)
  rw [hl, ht]
  unfold stripSchemeL
  rw [if_neg (by simp [List.isPrefixOf]), if_neg (by simp [List.isPrefixOf])]
  unfold stripWwwL
  rw [if_neg (by simp [List.isPrefixOf])]

/-- Unfolding of the translator on an explicit character list. -/
theorem patternToDnrFilter_mk (cs : List Char) :
    patternToDnrFilter (String.mk cs) =
      if "*.".data.isPrefixOf (normalizePatternL cs) then
        String.mk ('|' :: '|' :: (normalizePatternL cs).drop 2)
      else String.mk ('|' :: '|' :: normalizePatternL cs) := rfl

/-- C10 (counterexample): the translator is not invariant under
prepending a scheme to an arbitrary pattern — a pattern that already
carries a scheme keeps the second scheme in its filter, because only one
leading scheme is stripped. -/
theorem c10_invariance_counterexample :
    patternToDnrFilter "http://http://example.com" ≠
      patternToDnrFilter "http://example.com" := by
  decide

/-- C10 (amended): the translator is invariant under letter case and
under surrounding whitespace for every pattern; and for a normalised core
pattern — lowercase, no whitespace at either end, not already starting
with a scheme or `www.` — prepending `http://`, `https://` or `www.`
yields the same filter, and `*.` plus a core that does not itself start
with `*.` yields the same filter as the bare core. -/
theorem c10_filter_normalization_invariance :
    (∀ p q : String, jsToLower p.data = jsToLower q.data →
      patternToDnrFilter p = patternToDnrFilter q)
    ∧ (∀ (p : String) (u v : List Char),
        (∀ c ∈ u, c.isWhitespace = true) → (∀ c ∈ v, c.isWhitespace = true) →
        patternToDnrFilter ⟨u ++ p.data ++ v⟩ = patternToDnrFilter p)
    ∧ (∀ p : String, jsToLower p.data = p.data →
        (∀ c, p.data.head? = some c → c.isWhitespace = false) →
        (∀ c, p.data.getLast? = some c → c.isWhitespace = false) →
        "http://".data.isPrefixOf p.data = false →
        "https://".data.isPrefixOf p.data = false →
        "www.".data.isPrefixOf p.data = false →
        patternToDnrFilter ⟨"http://".data ++ p.data⟩ = patternToDnrFilter p
        ∧ patternToDnrFilter ⟨"https://".data ++ p.data⟩ = patternToDnrFilter p
        ∧ patternToDnrFilter ⟨"www.".data ++ p.data⟩ = patternToDnrFilter p
        ∧ ("*.".data.isPrefixOf p.data = false →
            patternToDnrFilter ⟨'*' :: '.' :: p.data⟩ = patternToDnrFilter p)) := by
  refine ⟨fun p q h => ?_, fun p u v hu hv => ?_, fun p hlow hhd hlast hs1 hs2 hw => ?_⟩
  · exact patternToDnrFilter_congr (by unfold normalizePatternL; rw [h])
  · apply patternToDnrFilter_congr
    show normalizePatternL (u ++ p.data ++ v) = normalizePatternL p.data
    have hu2 := jsToLower_of_whitespace hu
    have hv2 := jsToLower_of_whitespace hv
    have hl : jsToLower (u ++ p.data ++ v) = u ++ jsToLower p.data ++ v := by
      unfold jsToLower at hu2 hv2 ⊢
      rw [List.map_append, List.map_append, hu2, hv2]
    unfold normalizePatternL
    rw [hl, jsTrim_append_whitespace hu hv]
  · have hself := normalizePatternL_eq_self hlow hhd hlast hs1 hs2 hw
    refine ⟨?_, ?_, ?_, fun hstar => ?_⟩
    · exact patternToDnrFilter_congr (by
        show normalizePatternL ("http://".data ++ p.data) = normalizePatternL p.data
        rw [normalizePatternL_http hlow hlast hw, hself])
    · exact patternToDnrFilter_congr (by
        show normalizePatternL ("https://".data ++ p.data) = normalizePatternL p.data
        rw [normalizePatternL_https hlow hlast hw, hself])
    · exact patternToDnrFilter_congr (by
        show normalizePatternL ("www.".data ++ p.data) = normalizePatternL p.data
        rw [normalizePatternL_www hlow hlast, hself])
    · rw [patternToDnrFilter_mk, normalizePatternL_star hlow hlast,
        if_pos (by simp [List.isPrefixOf])]
      conv_rhs => rw [show p = String.mk p.data from rfl]
      rw [patternToDnrFilter_mk, hself, if_neg (by simp [hstar])]
      rfl

/-- Witness for C10 (amended) at the core pattern `example.com`. -/
theorem c10_filter_normalization_invariance_witness :
    (patternToDnrFilter "Example.com" = patternToDnrFilter "EXAMPLE.COM")
    ∧ (patternToDnrFilter ⟨" ".data ++ "example.com".data ++ " ".data⟩ =
        patternToDnrFilter "example.com")
    ∧ (patternToDnrFilter ⟨"http://".data ++ "example.com".data⟩ =
        patternToDnrFilter "example.com")
    ∧ (patternToDnrFilter ⟨'*' :: '.' :: "example.com".data⟩ =
        patternToDnrFilter "example.com") :=
  ⟨c10_filter_normalization_invariance.1 "Example.com" "EXAMPLE.COM" (by decide),
   c10_filter_normalization_invariance.2.1 "example.com" " ".data " ".data
     (by decide) (by decide),
   (c10_filter_normalization_invariance.2.2 "example.com" (by decide)
     (fun c hc => by cases hc; decide) (fun c hc => by cases hc; decide)
     (by decide) (by decide) (by decide)).1,
   (c10_filter_normalization_invariance.2.2 "example.com" (by decide)
     (fun c hc => by cases hc; decide) (fun c hc => by cases hc; decide)
     (by decide) (by decide) (by decide)).2.2.2 (by decide)⟩
